import Mathlib

/-!
Shallow embedding of the rocketry repository (main.py, rocket.py, hohmann.py,
visualizer.py) over exact rational arithmetic.

Numbers: the source computes with Python `Decimal` at 50 significant digits and
occasionally with 64-bit floats.  The embedding uses `ℚ` (exact arithmetic);
the transcendental primitives the source calls (`math.cos`, `math.sin`,
`math.atan2`, `Decimal.sqrt`, `float ** 0.4`, `math.log`) are taken as
abstract function parameters, since no claim depends on their numeric values.

Python `Decimal` specifics modelled exactly:
- the `%` operator on `Decimal` is a truncated remainder whose sign follows the
  dividend (`decMod` below);
- division of a nonzero `Decimal` by zero raises `DivisionByZero`, a subclass
  of `ZeroDivisionError`, while `0 / 0` raises `InvalidOperation`, which is NOT
  a `ZeroDivisionError` (`ddiv` below).
-/

namespace Rocketry

/-- Value of the constant `PI` from main.py: `Decimal('3.14159...')` with 50
significant digits, an exact rational. -/
def PI : ℚ := 3.14159265358979323846264338327950288419716939937510

/-- Value of the class constant `CelestialBody.G = Decimal('6.67430e-11')`. -/
def Gconst : ℚ := 6.67430e-11

/-- Truncation of a rational toward zero, the rounding used by Python
`Decimal` integer division. -/
def ratTrunc (q : ℚ) : ℤ := if 0 ≤ q then ⌊q⌋ else -⌊-q⌋

/-- Semantics of the `%` operator on Python `Decimal` values: a truncated
remainder, whose sign follows the dividend. -/
def decMod (x m : ℚ) : ℚ := x - m * (ratTrunc (x / m) : ℚ)

/-- Python exceptions that the embedded code can raise. -/
inductive PyErr : Type where
  | valueError : PyErr
  | zeroDivisionError : PyErr
  | invalidOperation : PyErr
  | attributeError : PyErr
deriving DecidableEq

/-- Division of Python `Decimal` values: `x / 0` raises `DivisionByZero`
(a subclass of `ZeroDivisionError`) for `x ≠ 0` and `InvalidOperation`
for `x = 0`. -/
def ddiv (a b : ℚ) : Except PyErr ℚ :=
  if b ≠ 0 then Except.ok (a / b)
  else if a ≠ 0 then Except.error PyErr.zeroDivisionError
  else Except.error PyErr.invalidOperation

/-- Scalar state of a `CelestialBody` (main.py): mass (kg), radius (km),
distance_from_parent_km (km), _orbit_angle (radians).  The name and color
fields are display metadata and are omitted. -/
structure BodyData where
  mass : ℚ
  radius : ℚ
  distance_from_parent_km : ℚ
  orbit_angle : ℚ
deriving DecidableEq

/-- A `CelestialBody` together with its (acyclic) parent chain:
`root d` has `parent_body = None`, `orbiting d p` has `parent_body = p`. -/
inductive Body : Type where
  | root (d : BodyData) : Body
  | orbiting (d : BodyData) (parent : Body) : Body
deriving DecidableEq

namespace Body

/-- Field access on the underlying record. -/
def data : Body → BodyData
  | root d => d
  | orbiting d _ => d

/-- The `parent_body` attribute (`None` for the root). -/
def parent? : Body → Option Body
  | root _ => none
  | orbiting _ p => some p

/-- Number of ancestors; used to rule out cyclic values. -/
def depth : Body → ℕ
  | root _ => 0
  | orbiting _ p => depth p + 1

/-- CelestialBody.get_position: `(0,0)` for a body with no parent, else
`(d·cos θ, d·sin θ)` with `d` in meters.  `c` and `s` stand for the
`math.cos` and `math.sin` calls of the source. -/
def get_position (c s : ℚ → ℚ) : Body → ℚ × ℚ
  | root _ => (0, 0)
  | orbiting d _ =>
      (d.distance_from_parent_km * 1000 * c d.orbit_angle,
       d.distance_from_parent_km * 1000 * s d.orbit_angle)

/-- CelestialBody.gravity_at_distance: `G·m / (d·1000)²`. -/
def gravity_at_distance (b : Body) (distance_km : ℚ) : ℚ :=
  Gconst * b.data.mass / ((distance_km * 1000) * (distance_km * 1000))

/-- CelestialBody.current_orbital_velocity: `0` for the root, else
`sqrt(G·M_parent / (d·1000))`; `sqF` stands for `Decimal.sqrt`. -/
def current_orbital_velocity (sqF : ℚ → ℚ) : Body → ℚ
  | root _ => 0
  | orbiting d p =>
      sqF (Gconst * p.data.mass / (d.distance_from_parent_km * 1000))

/-- CelestialBody.sphere_of_influence: `None` for the root, else
`distance_from_parent_km · (m/M)^0.4`; `pF` stands for the
`float(mass_ratio) ** 0.4` computation. -/
def sphere_of_influence (pF : ℚ → ℚ) : Body → Option ℚ
  | root _ => none
  | orbiting d p =>
      some (d.distance_from_parent_km * pF (d.mass / p.data.mass))

/-- CelestialBody.update_position: stores `angle_radians % (2·PI)` where `%`
is the Decimal truncated remainder. -/
def update_position (angle_radians : ℚ) : ℚ :=
  decMod angle_radians (2 * PI)

end Body

/-- The Rocket dataclass state (rocket.py). -/
structure Rocket where
  dry_mass : ℚ
  fuel_mass : ℚ
  thrust : ℚ
  fuel_consumption : ℚ
  parent_body : Body
  x : ℚ
  y : ℚ
  dx : ℚ
  dy : ℚ
  rotation : ℚ
  thrust_fraction : ℚ
deriving DecidableEq

namespace Rocket

/-- Rocket.distance_from_parent_km: `sqrt(x² + y²) / 1000`. -/
def distance_from_parent_km (sqF : ℚ → ℚ) (r : Rocket) : ℚ :=
  sqF (r.x * r.x + r.y * r.y) / 1000

/-- Rocket.rotate: `rotation = (rotation + angle_change) % (5·PI)` with the
Decimal truncated remainder (the source normalizes by `5·PI`, not `2·PI`). -/
def rotate (angle_change : ℚ) (r : Rocket) : Rocket :=
  { r with rotation := decMod (r.rotation + angle_change) (5 * PI) }

/-- Rocket.update_fuel: `fuel_mass = max(0, fuel_mass − fuel_consumption·t)`.
The source multiplies by the full `fuel_consumption` rate; `thrust_fraction`
is not a factor. -/
def update_fuel (elapsed_time : ℚ) (r : Rocket) : Rocket :=
  { r with fuel_mass := max 0 (r.fuel_mass - r.fuel_consumption * elapsed_time) }

/-- Rocket.current_thrust: `thrust · thrust_fraction`. -/
def current_thrust (r : Rocket) : ℚ := r.thrust * r.thrust_fraction

/-- Rocket.total_mass: `dry_mass + fuel_mass`. -/
def total_mass (r : Rocket) : ℚ := r.dry_mass + r.fuel_mass

/-- Rocket.local_gravity: `parent_body.gravity_at_distance(distance_from_parent_km)`. -/
def local_gravity (sqF : ℚ → ℚ) (r : Rocket) : ℚ :=
  r.parent_body.gravity_at_distance (r.distance_from_parent_km sqF)

/-- Rocket.delta_v: Tsiolkovsky delta-v.  The `try` block evaluates
`exhaust_velocity` (= `thrust / fuel_consumption`), then `mass_ratio`
(= `total_mass / dry_mass`), then `math.log` of it (raising `ValueError` on a
non-positive argument, modelled by the sign test; `logF` stands for the
logarithm value itself); `except (ValueError, ZeroDivisionError)` yields 0
and every other exception propagates. -/
def delta_v (logF : ℚ → ℚ) (r : Rocket) : Except PyErr ℚ :=
  let comp : Except PyErr ℚ := do
    let ev ← ddiv r.thrust r.fuel_consumption
    let mr ← ddiv (r.dry_mass + r.fuel_mass) r.dry_mass
    let lg ← if mr ≤ 0 then Except.error PyErr.valueError else Except.ok (logF mr)
    pure (ev * lg)
  match comp with
  | Except.ok v => Except.ok v
  | Except.error PyErr.valueError => Except.ok 0
  | Except.error PyErr.zeroDivisionError => Except.ok 0
  | Except.error e => Except.error e

/-- Rocket.burn_time: `fuel_mass / fuel_consumption`, where only
`ZeroDivisionError` is caught (yielding 0); the `InvalidOperation` raised by
the Decimal division `0 / 0` propagates. -/
def burn_time (r : Rocket) : Except PyErr ℚ :=
  match ddiv r.fuel_mass r.fuel_consumption with
  | Except.ok v => Except.ok v
  | Except.error PyErr.zeroDivisionError => Except.ok 0
  | Except.error e => Except.error e

/-- Rocket.transition_to_parent: re-expresses position and velocity in the
new parent frame.  The branch test is the source comparison
`new_parent == old_parent.parent_body` (which is false when the old parent is
the root, since a body never equals `None`).  `aF` stands for `math.atan2`. -/
def transition_to_parent (c s : ℚ → ℚ) (aF : ℚ → ℚ → ℚ) (sqF : ℚ → ℚ)
    (r : Rocket) (new_parent : Body) : Rocket :=
  let old := r.parent_body
  if old.parent? = some new_parent then
    let px := (old.get_position c s).1
    let py := (old.get_position c s).2
    let parent_speed := old.current_orbital_velocity sqF
    let parent_angle := aF py px
    let velocity_angle := parent_angle + PI / 2
    { r with
      x := r.x + px
      y := r.y + py
      dx := r.dx + parent_speed * c velocity_angle
      dy := r.dy + parent_speed * s velocity_angle
      parent_body := new_parent }
  else
    let cx := (new_parent.get_position c s).1
    let cy := (new_parent.get_position c s).2
    let child_speed := new_parent.current_orbital_velocity sqF
    let child_angle := aF cy cx
    let velocity_angle := child_angle + PI / 2
    { r with
      x := r.x - cx
      y := r.y - cy
      dx := r.dx - child_speed * c velocity_angle
      dy := r.dy - child_speed * s velocity_angle
      parent_body := new_parent }

/-- Rocket.check_soi_transition.  The leaving branch is modelled faithfully;
when it does not fire, control reaches `for body in current_parent.children`,
and `CelestialBody` never defines a `children` attribute (no code in the
repository assigns one), so that attribute access raises `AttributeError`.
The `if parent_soi and ...` test treats the `Decimal` zero as falsy. -/
def check_soi_transition (c s : ℚ → ℚ) (aF : ℚ → ℚ → ℚ) (sqF pF : ℚ → ℚ)
    (r : Rocket) : Except PyErr Rocket :=
  let dkm := r.distance_from_parent_km sqF
  match r.parent_body with
  | Body.orbiting d gp =>
      let psoi := d.distance_from_parent_km * pF (d.mass / gp.data.mass)
      if psoi ≠ 0 ∧ dkm > psoi then
        Except.ok (r.transition_to_parent c s aF sqF gp)
      else
        Except.error PyErr.attributeError
  | Body.root _ => Except.error PyErr.attributeError

/-- Rocket.update: fuel depletion (when thrusting), gravity and thrust
acceleration guarded by `r > 0`, position integration, then
`check_soi_transition`.  The returned pair is the final state of the mutated
object together with the exception the call raises, if any (Python keeps the
mutations made before an exception propagates). -/
def update (c s : ℚ → ℚ) (aF : ℚ → ℚ → ℚ) (sqF pF : ℚ → ℚ)
    (dt : ℚ) (r : Rocket) : Rocket × Option PyErr :=
  let r0 := if r.thrust_fraction > 0 then r.update_fuel dt else r
  let rm := r0.distance_from_parent_km sqF * 1000
  let r1 :=
    if rm > 0 then
      let g := r0.local_gravity sqF
      let gx := -g * r0.x / rm
      let gy := -g * r0.y / rm
      let rA := { r0 with dx := r0.dx + gx * dt, dy := r0.dy + gy * dt }
      if rA.thrust_fraction > 0 ∧ rA.fuel_mass > 0 then
        let ta := rA.current_thrust / rA.total_mass
        { rA with
          dx := rA.dx + ta * c rA.rotation * dt
          dy := rA.dy + ta * s rA.rotation * dt }
      else rA
    else r0
  let r2 := { r1 with x := r1.x + r1.dx * dt, y := r1.y + r1.dy * dt }
  match r2.check_soi_transition c s aF sqF pF with
  | Except.ok r3 => (r3, none)
  | Except.error e => (r2, some e)

end Rocket

/-- Visualizer.get_rocket_absolute_position while-loop: the sum of
`get_position()` along the parent chain starting at the given body. -/
def chainSum (c s : ℚ → ℚ) : Body → ℚ × ℚ
  | Body.root _ => (0, 0)
  | Body.orbiting d p =>
      (((Body.orbiting d p).get_position c s).1 + (chainSum c s p).1,
       ((Body.orbiting d p).get_position c s).2 + (chainSum c s p).2)

/-- Visualizer.get_rocket_absolute_position: rocket position plus the
accumulated parent-chain positions. -/
def get_rocket_absolute_position (c s : ℚ → ℚ) (r : Rocket) : ℚ × ℚ :=
  (r.x + (chainSum c s r.parent_body).1, r.y + (chainSum c s r.parent_body).2)

/-- Normalization of the two radii in hohmann.py lines 24-25:
`if r1 > r2: r1, r2 = r2, r1`. -/
def sortPair (a b : ℚ) : ℚ × ℚ := if a > b then (b, a) else (a, b)

/-- calculate_hohmann_phase_angle (hohmann.py).  Raises `ValueError`
("Bodies must share the same parent body") when the parents differ; with two
root bodies the parent check passes and `body1.parent_body.G` raises
`AttributeError`.  The unused `w1` is still computed because its division can
raise.  `sqF` stands for `Decimal.sqrt`. -/
def calculate_hohmann_phase_angle (sqF : ℚ → ℚ) (body1 body2 : Body) :
    Except PyErr ℚ :=
  if body1.parent? ≠ body2.parent? then Except.error PyErr.valueError
  else do
    let rp := sortPair (body1.data.distance_from_parent_km * 1000)
                       (body2.data.distance_from_parent_km * 1000)
    let r1 := rp.1
    let r2 := rp.2
    let p ← match body1.parent? with
            | none => Except.error PyErr.attributeError
            | some p => Except.ok p
    let mu := Gconst * p.data.mass
    let a := (r1 + r2) / 2
    let ttArg ← ddiv (a * a * a) mu
    let transfer_time := PI * sqF ttArg
    let w1Arg ← ddiv mu (r1 * r1 * r1)
    let _w1 := sqF w1Arg
    let w2Arg ← ddiv mu (r2 * r2 * r2)
    let w2 := sqF w2Arg
    pure (PI - w2 * transfer_time)

/-- Record for one entry of the Visualizer body list: the fields
`update_orbits` reads and writes.  The parent reference is an index into the
shared list, mirroring the aliased Python object graph. -/
structure OBody where
  mass : ℚ
  distance_from_parent_km : ℚ
  orbit_angle : ℚ
  parent : Option ℕ
deriving DecidableEq

/-- New value of the body at index `i` computed by one iteration of the
Visualizer.update_orbits loop (`none` when the body is skipped because it has
no parent): `ω = sqrt(G·M_parent / r³)` and the angle becomes
`(orbit_angle + ω·dt) % (2·PI)` via `CelestialBody.update_position`.  Only
the body's own distance and the parent's mass are read, never the parent's
angle. -/
def newBodyAt (sqF : ℚ → ℚ) (dt : ℚ) (L : List OBody) (i : ℕ) : Option OBody :=
  match L.get? i with
  | none => none
  | some b =>
    match b.parent with
    | none => none
    | some pidx =>
      match (L.get? pidx).map OBody.mass with
      | none => none
      | some pmass =>
        let mu := Gconst * pmass
        let rr := b.distance_from_parent_km * 1000
        let angular_velocity := sqF (mu / (rr * rr * rr))
        let new_angle := b.orbit_angle + angular_velocity * dt
        some { b with orbit_angle := Body.update_position new_angle }

/-- One iteration of the Visualizer.update_orbits loop: write back the new
body state at index `i` (no write when the body has no parent). -/
def updateBody (sqF : ℚ → ℚ) (dt : ℚ) (L : List OBody) (i : ℕ) : List OBody :=
  match newBodyAt sqF dt L i with
  | none => L
  | some nb => L.set i nb

/-- Visualizer.update_orbits: iterate the per-body update over the bodies in
the given order (a list of indices into the shared body list). -/
def update_orbits (sqF : ℚ → ℚ) (dt : ℚ) (order : List ℕ) (L : List OBody) :
    List OBody :=
  order.foldl (updateBody sqF dt) L

/-! Concrete inputs used by the closed evaluation theorems and witnesses. -/

/-- A root body (no parent), standing for the Sun. -/
def sunB : Body := Body.root { mass := 20, radius := 5, distance_from_parent_km := 0, orbit_angle := 0 }

/-- A body orbiting `sunB`, standing for a planet. -/
def earthB : Body := Body.orbiting { mass := 20, radius := 2, distance_from_parent_km := 10, orbit_angle := 0 } sunB

/-- A second body orbiting `sunB`. -/
def marsB : Body := Body.orbiting { mass := 30, radius := 3, distance_from_parent_km := 40, orbit_angle := 1 } sunB

/-- Rocket at half throttle, used for the fuel-depletion evaluation. -/
def rocketC1 : Rocket :=
  { dry_mass := 100, fuel_mass := 10, thrust := 1000, fuel_consumption := 2,
    parent_body := sunB, x := 0, y := 0, dx := 0, dy := 0, rotation := 0,
    thrust_fraction := 1/2 }

/-- Rocket whose absolute position is tracked across an SOI transition. -/
def rocketC2 : Rocket :=
  { dry_mass := 100, fuel_mass := 10, thrust := 1000, fuel_consumption := 2,
    parent_body := earthB, x := 7, y := 11, dx := 1, dy := 2, rotation := 0,
    thrust_fraction := 0 }

/-- Rocket inside its parent's SOI, so the leaving branch does not fire. -/
def rocketC3 : Rocket :=
  { dry_mass := 100, fuel_mass := 10, thrust := 1000, fuel_consumption := 2,
    parent_body := earthB, x := 0, y := 0, dx := 0, dy := 0, rotation := 0,
    thrust_fraction := 0 }

/-- Rocket with rotation 0, used for the rotate evaluation. -/
def rocketC7 : Rocket :=
  { dry_mass := 100, fuel_mass := 10, thrust := 1000, fuel_consumption := 2,
    parent_body := sunB, x := 0, y := 0, dx := 0, dy := 0, rotation := 0,
    thrust_fraction := 0 }

/-- Rocket with zero consumption rate and nonzero fuel. -/
def rocketC8a : Rocket :=
  { dry_mass := 100, fuel_mass := 5, thrust := 1000, fuel_consumption := 0,
    parent_body := sunB, x := 0, y := 0, dx := 0, dy := 0, rotation := 0,
    thrust_fraction := 0 }

/-- Rocket with zero consumption rate and nonzero thrust. -/
def rocketC8b : Rocket :=
  { dry_mass := 100, fuel_mass := 5, thrust := 7, fuel_consumption := 0,
    parent_body := sunB, x := 0, y := 0, dx := 0, dy := 0, rotation := 0,
    thrust_fraction := 0 }

/-- Rocket with non-positive mass ratio. -/
def rocketC8c : Rocket :=
  { dry_mass := 1, fuel_mass := -3, thrust := 1, fuel_consumption := 1,
    parent_body := sunB, x := 0, y := 0, dx := 0, dy := 0, rotation := 0,
    thrust_fraction := 0 }

/-- Rocket with zero fuel AND zero consumption rate: the `Decimal` division
`0 / 0` raises `InvalidOperation`, which `except ZeroDivisionError` does not
catch. -/
def rocketC8z : Rocket :=
  { dry_mass := 100, fuel_mass := 0, thrust := 1000, fuel_consumption := 0,
    parent_body := sunB, x := 0, y := 0, dx := 0, dy := 0, rotation := 0,
    thrust_fraction := 0 }

/-- Rocket sitting exactly at its parent's center, moving with (dx, dy) = (3, 4). -/
def rocketC10 : Rocket :=
  { dry_mass := 100, fuel_mass := 10, thrust := 0, fuel_consumption := 0,
    parent_body := sunB, x := 0, y := 0, dx := 3, dy := 4, rotation := 0,
    thrust_fraction := 0 }

/-- Visualizer body list with a root body at index 0 and one orbiting body. -/
def oSun : OBody := { mass := 20, distance_from_parent_km := 0, orbit_angle := 0, parent := none }

/-- Orbiting member of the witness body list. -/
def oPlanet : OBody := { mass := 5, distance_from_parent_km := 2, orbit_angle := 0, parent := some 0 }

/-- The witness body list. -/
def bodyListW : List OBody := [oSun, oPlanet]

/-! Arithmetic facts about the truncated Decimal remainder. -/

/-- The 50-digit PI constant is nonzero. -/
theorem PI_ne_zero : PI ≠ 0 := by norm_num [PI]

/-- The modulus used by CelestialBody.update_position is positive. -/
theorem two_pi_pos : 0 < 2 * PI := by norm_num [PI]

/-- On nonnegative arguments the truncation is the floor. -/
theorem ratTrunc_of_nonneg {q : ℚ} (h : 0 ≤ q) : ratTrunc q = ⌊q⌋ := if_pos h

/-- On negative arguments the truncation is the negated floor of the negation. -/
theorem ratTrunc_of_neg {q : ℚ} (h : ¬ 0 ≤ q) : ratTrunc q = -⌊-q⌋ := if_neg h

/-- Truncation commutes with negation. -/
theorem ratTrunc_neg (q : ℚ) : ratTrunc (-q) = -ratTrunc q := by
  rcases lt_trichotomy q 0 with h | h | h
  · rw [ratTrunc_of_nonneg (by linarith), ratTrunc_of_neg (not_le.mpr h), neg_neg]
  · subst h; simp [ratTrunc]
  · rw [ratTrunc_of_neg (by simpa using not_le.mpr h), ratTrunc_of_nonneg h.le, neg_neg]

/-- The defining decomposition of the truncated remainder. -/
theorem decMod_sub (x m : ℚ) : x - decMod x m = m * (ratTrunc (x / m) : ℚ) := by
  simp [decMod]

/-- The remainder negates with the dividend. -/
theorem decMod_neg (x m : ℚ) : decMod (-x) m = -decMod x m := by
  simp only [decMod, neg_div, ratTrunc_neg]
  push_cast
  ring

/-- Range of the truncated remainder for a nonnegative dividend. -/
theorem decMod_nonneg_bounds {x m : ℚ} (hm : 0 < m) (hx : 0 ≤ x) :
    0 ≤ decMod x m ∧ decMod x m < m := by
  have hq : 0 ≤ x / m := div_nonneg hx hm.le
  have key : decMod x m = m * Int.fract (x / m) := by
    rw [decMod, ratTrunc_of_nonneg hq, Int.fract, mul_sub, mul_div_cancel₀ _ hm.ne.symm]
  constructor
  · rw [key]; exact mul_nonneg hm.le (Int.fract_nonneg _)
  · rw [key]
    calc m * Int.fract (x / m) < m * 1 :=
          mul_lt_mul_of_pos_left (Int.fract_lt_one _) hm
      _ = m := mul_one m

/-- Range of the truncated remainder for a negative dividend. -/
theorem decMod_neg_bounds {x m : ℚ} (hm : 0 < m) (hx : x < 0) :
    -m < decMod x m ∧ decMod x m ≤ 0 := by
  have h := decMod_nonneg_bounds hm (by linarith : (0:ℚ) ≤ -x)
  have hx2 : decMod x m = -decMod (-x) m := by rw [decMod_neg, neg_neg]
  constructor
  · rw [hx2]; linarith [h.2]
  · rw [hx2]; linarith [h.1]

/-! Claim C4: behavior of the orbit-angle update. -/

/-- C4 (amended): `update_position` stores the Decimal truncated remainder of
its argument by `2·PI`: the stored angle differs from the argument by an
integer multiple of `2·PI` and lies in the open interval `(-2·PI, 2·PI)`; it
lies in `[0, 2·PI)` whenever the argument is nonnegative; and advancing the
argument by `2·PI·k` for any integer `k` leaves the stored angle unchanged
modulo `2·PI`. -/
theorem update_position_truncated_remainder (x : ℚ) :
    (∃ k : ℤ, x - Body.update_position x = 2 * PI * k)
    ∧ (0 ≤ x → 0 ≤ Body.update_position x ∧ Body.update_position x < 2 * PI)
    ∧ (-(2 * PI) < Body.update_position x ∧ Body.update_position x < 2 * PI)
    ∧ (∀ k : ℤ, ∃ j : ℤ,
        Body.update_position (x + 2 * PI * k) - Body.update_position x = 2 * PI * j) := by
  refine ⟨⟨ratTrunc (x / (2 * PI)), ?_⟩, ?_, ?_, ?_⟩
  · rw [Body.update_position]; exact decMod_sub x (2 * PI)
  · intro hx; exact decMod_nonneg_bounds two_pi_pos hx
  · rcases le_or_lt 0 x with hx | hx
    · have h := decMod_nonneg_bounds two_pi_pos hx
      exact ⟨by rw [Body.update_position]; linarith [h.1, two_pi_pos], by rw [Body.update_position]; exact h.2⟩
    · have h := decMod_neg_bounds two_pi_pos hx
      exact ⟨by rw [Body.update_position]; exact h.1, by rw [Body.update_position]; linarith [h.2, two_pi_pos]⟩
  · intro k
    refine ⟨k - ratTrunc ((x + 2 * PI * k) / (2 * PI)) + ratTrunc (x / (2 * PI)), ?_⟩
    simp only [Body.update_position, decMod]
    push_cast
    ring

/-- C4 counterexample: at the negative argument `-1` the stored orbit angle is
`-1` itself, which is negative, so the stored angle does not lie in `[0, 2·PI)`
and is not the mathematical modulus of the argument. -/
theorem update_position_negative_input_stays_negative :
    Body.update_position (-1) = -1 ∧ Body.update_position (-1) < 0 := by
  have hneg : ¬ (0:ℚ) ≤ (-1) / (2 * PI) := by norm_num [PI]
  have hfloor : ⌊-((-1 : ℚ) / (2 * PI))⌋ = 0 := by
    rw [Int.floor_eq_iff]
    norm_num [PI]
  have h1 : ratTrunc ((-1 : ℚ) / (2 * PI)) = 0 := by
    rw [ratTrunc_of_neg hneg, hfloor, neg_zero]
  have : Body.update_position (-1) = -1 := by
    simp [Body.update_position, decMod, h1]
  exact ⟨this, by rw [this]; norm_num⟩

/-- C4 witness: the amended statement instantiated at the concrete argument
`-1`. -/
theorem update_position_truncated_remainder_witness :
    (∃ k : ℤ, (-1 : ℚ) - Body.update_position (-1) = 2 * PI * k)
    ∧ ((0:ℚ) ≤ -1 → 0 ≤ Body.update_position (-1) ∧ Body.update_position (-1) < 2 * PI)
    ∧ (-(2 * PI) < Body.update_position (-1) ∧ Body.update_position (-1) < 2 * PI)
    ∧ (∀ k : ℤ, ∃ j : ℤ,
        Body.update_position (-1 + 2 * PI * k) - Body.update_position (-1) = 2 * PI * j) :=
  update_position_truncated_remainder (-1)

/-! Claim C7: rotate normalizes modulo 5·PI, which changes the heading. -/

/-- C7: evaluation at the failing input: rotating a rocket with rotation 0 by
`6·PI` stores `PI` (the truncated remainder modulo `5·PI`), and the stored
rotation does not differ from `rotation + 6·PI` by any integer multiple of
`2·PI`, so the effective thrust heading flips. -/
theorem rotate_six_pi_flips_heading :
    (Rocket.rotate (6 * PI) rocketC7).rotation = PI
    ∧ ∀ k : ℤ, (Rocket.rotate (6 * PI) rocketC7).rotation
        ≠ rocketC7.rotation + 6 * PI + 2 * PI * k := by
  have hq : (0 + 6 * PI) / (5 * PI) = 6 / 5 := by
    have hPI := PI_ne_zero
    rw [zero_add]
    field_simp
    ring
  have hfloor : ⌊(6 / 5 : ℚ)⌋ = 1 := by
    rw [Int.floor_eq_iff]
    norm_num
  have ht : ratTrunc ((0 + 6 * PI) / (5 * PI)) = 1 := by
    rw [hq, ratTrunc_of_nonneg (by norm_num), hfloor]
  have hstored : (Rocket.rotate (6 * PI) rocketC7).rotation = PI := by
    simp only [Rocket.rotate, rocketC7, decMod, ht]
    push_cast
    ring
  refine ⟨hstored, ?_⟩
  intro k h
  rw [hstored] at h
  have hrot : rocketC7.rotation = 0 := rfl
  rw [hrot] at h
  have h5 : (2 * (k:ℚ)) * PI = (-5) * PI := by linear_combination -h
  have h6 : (2 * (k:ℚ)) = -5 := mul_right_cancel₀ PI_ne_zero h5
  have h8 : (2 * k : ℤ) = -5 := by exact_mod_cast h6
  omega

/-! Claim C8: absorption of numeric domain errors in delta_v and burn_time. -/

/-- C8 (amended): the derived quantities absorb `ValueError` and
`ZeroDivisionError` locally and return 0: `burn_time` returns 0 whenever
`fuel_consumption = 0` and `fuel_mass ≠ 0`; `delta_v` returns 0 whenever
`fuel_consumption = 0` with `thrust ≠ 0`, and whenever the mass ratio is
defined (`dry_mass ≠ 0`) and non-positive, provided the exhaust-velocity
division is not the `Decimal` `0/0` case.  The `0/0` divisions raise
`InvalidOperation`, which is not absorbed (see the counterexample). -/
theorem delta_v_burn_time_absorb_domain_errors :
    (∀ r : Rocket, r.fuel_consumption = 0 → r.fuel_mass ≠ 0 →
        Rocket.burn_time r = Except.ok 0)
    ∧ (∀ (logF : ℚ → ℚ) (r : Rocket), r.fuel_consumption = 0 → r.thrust ≠ 0 →
        Rocket.delta_v logF r = Except.ok 0)
    ∧ (∀ (logF : ℚ → ℚ) (r : Rocket), r.dry_mass ≠ 0 →
        ¬(r.thrust = 0 ∧ r.fuel_consumption = 0) →
        (r.dry_mass + r.fuel_mass) / r.dry_mass ≤ 0 →
        Rocket.delta_v logF r = Except.ok 0) := by
  refine ⟨?_, ?_, ?_⟩
  · intro r hc hf
    simp [Rocket.burn_time, ddiv, hc, hf]
  · intro logF r hc ht
    simp [Rocket.delta_v, ddiv, hc, ht, Bind.bind, Except.bind]
  · intro logF r hd htc hmr
    by_cases hc : r.fuel_consumption = 0
    · have ht : r.thrust ≠ 0 := fun h0 => htc ⟨h0, hc⟩
      simp [Rocket.delta_v, ddiv, hc, ht, Bind.bind, Except.bind]
    · simp [Rocket.delta_v, ddiv, hc, hd, Bind.bind, Except.bind, hmr]

/-- C8 counterexample: with `fuel_mass = 0` and `fuel_consumption = 0` the
Decimal division `0 / 0` inside `burn_time` raises `InvalidOperation`, which
the `except ZeroDivisionError` clause does not catch, so `burn_time` does not
return 0. -/
theorem burn_time_zero_zero_raises :
    Rocket.burn_time rocketC8z = Except.error PyErr.invalidOperation
    ∧ Rocket.burn_time rocketC8z ≠ Except.ok 0 := by
  constructor
  · simp [Rocket.burn_time, ddiv, rocketC8z]
  · simp [Rocket.burn_time, ddiv, rocketC8z]

/-- C8 witness: the three absorption cases evaluated at concrete rockets. -/
theorem delta_v_burn_time_absorb_domain_errors_witness :
    Rocket.burn_time rocketC8a = Except.ok 0
    ∧ Rocket.delta_v id rocketC8b = Except.ok 0
    ∧ Rocket.delta_v id rocketC8c = Except.ok 0 := by
  refine ⟨?_, ?_, ?_⟩
  · exact delta_v_burn_time_absorb_domain_errors.1 rocketC8a rfl (by norm_num [rocketC8a])
  · exact delta_v_burn_time_absorb_domain_errors.2.1 id rocketC8b rfl (by norm_num [rocketC8b])
  · exact delta_v_burn_time_absorb_domain_errors.2.2 id rocketC8c (by norm_num [rocketC8c])
      (by norm_num [rocketC8c]) (by norm_num [rocketC8c])

/-! Claim C1: fuel depletion during update. -/

/-- C1: evaluation at the failing input: a rocket at half throttle
(`thrust_fraction = 1/2`) with `fuel_consumption = 2` and `fuel_mass = 10`
updated for `dt = 1` ends with `fuel_mass = 8`: the code depletes by the full
`fuel_consumption · dt`, not by `fuel_consumption · thrust_fraction · dt`,
which would leave 9. -/
theorem update_fuel_ignores_thrust_fraction :
    (Rocket.update id id (fun _ _ => 0) id id 1 rocketC1).1.fuel_mass = 8
    ∧ (8:ℚ) ≠ max 0 (10 - 2 * (1/2) * 1) := by
  constructor
  · simp only [Rocket.update, Rocket.update_fuel, Rocket.check_soi_transition,
      Rocket.distance_from_parent_km, Rocket.local_gravity, rocketC1, sunB]
    norm_num
  · norm_num

/-! Claim C3: the entering SOI transition crashes on the missing children list. -/

/-- C3: evaluation at the failing input: a rocket whose distance to its parent
is within the parent's SOI, so the leaving branch does not fire; the code then
evaluates `current_parent.children`, an attribute `CelestialBody` never
defines, and raises `AttributeError` instead of examining any candidate body.
No reparenting to a child body can ever happen. -/
theorem check_soi_children_attribute_error :
    Rocket.check_soi_transition id id (fun _ _ => 0) id id rocketC3
      = Except.error PyErr.attributeError := by
  simp only [Rocket.check_soi_transition, Rocket.distance_from_parent_km,
    rocketC3, earthB, sunB, Body.data]
  norm_num

/-! Claim C10: update at the parent's center. -/

/-- C10: evaluation at the failing input: a rocket exactly at its root
parent's center with velocity `(3, 4)` updated for `dt = 2`: the `r > 0`
guard skips the gravity and thrust divisions, the position advances to
`(6, 8)` with the velocity unchanged, and the call then raises
`AttributeError` from `check_soi_transition` (missing `children` attribute),
so `update` does fault, although not in the gravity computation. -/
theorem update_at_center_skips_gravity_still_faults :
    Rocket.update id id (fun _ _ => 0) id id 2 rocketC10
      = ({ rocketC10 with x := 6, y := 8 }, some PyErr.attributeError) := by
  simp only [Rocket.update, Rocket.update_fuel, Rocket.check_soi_transition,
    Rocket.distance_from_parent_km, Rocket.local_gravity, rocketC10, sunB]
  norm_num

/-! Claims C6 and C9: the Hohmann phase-angle solver. -/

/-- The radii normalization of hohmann.py is symmetric in its arguments. -/
theorem sortPair_comm (a b : ℚ) : sortPair a b = sortPair b a := by
  unfold sortPair
  rcases lt_trichotomy a b with h | h | h
  · rw [if_neg (by exact not_lt.mpr h.le), if_pos h]
  · subst h; rfl
  · rw [if_pos h, if_neg (by exact not_lt.mpr h.le)]

/-- Decimal division never produces the mismatched-parent error. -/
theorem ddiv_ne_valueError (a b : ℚ) : ddiv a b ≠ Except.error PyErr.valueError := by
  unfold ddiv
  by_cases hb : b ≠ 0
  · rw [if_pos hb]; exact fun h => Except.noConfusion h
  · by_cases ha : a ≠ 0
    · rw [if_neg hb, if_pos ha]
      exact fun h => PyErr.noConfusion (Except.error.inj h)
    · rw [if_neg hb, if_neg ha]
      exact fun h => PyErr.noConfusion (Except.error.inj h)

/-- Binding preserves freedom from a given error. -/
theorem bind_ne_valueError {α β : Type} (e : Except PyErr α) (f : α → Except PyErr β)
    (he : e ≠ Except.error PyErr.valueError)
    (hf : ∀ x, f x ≠ Except.error PyErr.valueError) :
    e >>= f ≠ Except.error PyErr.valueError := by
  cases e with
  | ok a => simpa [Bind.bind, Except.bind] using hf a
  | error b => simpa [Bind.bind, Except.bind] using he

/-- With equal parents the solver never produces the mismatched-parent error. -/
theorem hohmann_no_valueError_of_eq (sqF : ℚ → ℚ) (b1 b2 : Body)
    (h : b1.parent? = b2.parent?) :
    calculate_hohmann_phase_angle sqF b1 b2 ≠ Except.error PyErr.valueError := by
  unfold calculate_hohmann_phase_angle
  rw [if_neg (by simp [h])]
  cases hp : b1.parent? with
  | none => simp [Bind.bind, Except.bind]
  | some p =>
    simp only [hp]
    refine bind_ne_valueError _ _ (by exact fun hc => Except.noConfusion hc) ?_
    intro q
    refine bind_ne_valueError _ _ (ddiv_ne_valueError _ _) ?_
    intro ttArg
    refine bind_ne_valueError _ _ (ddiv_ne_valueError _ _) ?_
    intro w1Arg
    refine bind_ne_valueError _ _ (ddiv_ne_valueError _ _) ?_
    intro w2Arg
    intro hc
    exact Except.noConfusion hc

/-- C9: `calculate_hohmann_phase_angle` fails with the mismatched-parent
`ValueError` (producing no result), if and only if the two bodies' parents
differ; every other outcome (a value, an `AttributeError` for two root
bodies, a division error) occurs only when the parents agree. -/
theorem hohmann_mismatched_parent_iff (sqF : ℚ → ℚ) (b1 b2 : Body) :
    calculate_hohmann_phase_angle sqF b1 b2 = Except.error PyErr.valueError
      ↔ b1.parent? ≠ b2.parent? := by
  constructor
  · intro hres
    by_contra hne
    exact hohmann_no_valueError_of_eq sqF b1 b2 hne hres
  · intro hne
    unfold calculate_hohmann_phase_angle
    rw [if_pos hne]

/-- C6: swapping the two bodies does not change the Hohmann phase angle when
they share a parent: the radii are sorted so the smaller orbit plays the same
role either way, and the gravitational parameter comes from the shared
parent. -/
theorem hohmann_phase_angle_symmetric (sqF : ℚ → ℚ) (b1 b2 : Body)
    (h : b1.parent? = b2.parent?) :
    calculate_hohmann_phase_angle sqF b1 b2 = calculate_hohmann_phase_angle sqF b2 b1 := by
  unfold calculate_hohmann_phase_angle
  rw [h, sortPair_comm]

/-- C6 witness: the symmetry evaluated at two concrete co-orbiting bodies. -/
theorem hohmann_phase_angle_symmetric_witness :
    calculate_hohmann_phase_angle id marsB earthB
      = calculate_hohmann_phase_angle id earthB marsB :=
  hohmann_phase_angle_symmetric id marsB earthB rfl

/-! Claim C2: SOI transitions preserve the absolute root-frame position. -/

/-- A body value is never its own strict descendant two levels down. -/
theorem no_two_cycle (d1 d2 : BodyData) (b : Body) :
    b ≠ Body.orbiting d1 (Body.orbiting d2 b) := by
  intro h
  have hd := congrArg Body.depth h
  simp [Body.depth] at hd
  omega

/-- C2: reparenting a rocket either to its parent's own parent (leaving) or
to a body orbiting its current parent (entering) leaves the rocket's
absolute root-frame position unchanged: resolving the new relative position
through the new parent chain gives exactly the absolute position resolved
through the old chain before the call. -/
theorem transition_preserves_absolute_position (c s : ℚ → ℚ) (aF : ℚ → ℚ → ℚ)
    (sqF : ℚ → ℚ) (r : Rocket) (np : Body)
    (h : r.parent_body.parent? = some np ∨ np.parent? = some r.parent_body) :
    get_rocket_absolute_position c s (r.transition_to_parent c s aF sqF np)
      = get_rocket_absolute_position c s r := by
  obtain ⟨dm, fm, th, fc, pb, rx, ry, rvx, rvy, rot, tf⟩ := r
  dsimp only at h ⊢
  rcases h with h | h
  · cases pb with
    | root d => simp [Body.parent?] at h
    | orbiting d gp =>
      have hgp : gp = np := by simpa [Body.parent?] using h
      subst hgp
      simp only [Rocket.transition_to_parent, Body.parent?, get_rocket_absolute_position,
        chainSum, Body.get_position]
      norm_num [Prod.ext_iff]
      constructor
      all_goals ring
  · cases np with
    | root dnp => simp [Body.parent?] at h
    | orbiting dnp old2 =>
      have hold : old2 = pb := by simpa [Body.parent?] using h
      subst hold
      have hcond : ¬ (old2.parent? = some (Body.orbiting dnp old2)) := by
        cases old2 with
        | root d2 => simp [Body.parent?]
        | orbiting d2 gp2 =>
          simp only [Body.parent?, Option.some.injEq]
          exact fun heq => no_two_cycle dnp d2 gp2 heq
      simp only [Rocket.transition_to_parent]
      rw [if_neg hcond]
      simp only [get_rocket_absolute_position, chainSum, Body.get_position]
      norm_num [Prod.ext_iff]
      constructor
      all_goals ring

/-- C2 witness: a concrete leaving transition (planet-orbiting rocket handed
up to the root) preserves the absolute position. -/
theorem transition_preserves_absolute_position_witness :
    get_rocket_absolute_position id id
        (rocketC2.transition_to_parent id id (fun _ _ => 0) id sunB)
      = get_rocket_absolute_position id id rocketC2 :=
  transition_preserves_absolute_position id id (fun _ _ => 0) id rocketC2 sunB
    (Or.inl rfl)

/-! Claim C5: order-independence of the whole-hierarchy angle advance. -/

/-- Entries other than the written index are untouched by one body update. -/
theorem updateBody_get?_ne (sqF : ℚ → ℚ) (dt : ℚ) (L : List OBody) {i j : ℕ}
    (h : i ≠ j) : (updateBody sqF dt L i).get? j = L.get? j := by
  unfold updateBody
  cases hA : newBodyAt sqF dt L i with
  | none => rfl
  | some nb => exact List.get?_set_ne nb L h

/-- Inversion: a computed body update preserves every field except the
orbit angle. -/
theorem newBodyAt_eq_some {sqF : ℚ → ℚ} {dt : ℚ} {L : List OBody} {i : ℕ}
    {nb : OBody} (h : newBodyAt sqF dt L i = some nb) :
    ∃ b, L.get? i = some b ∧ nb.mass = b.mass
      ∧ nb.distance_from_parent_km = b.distance_from_parent_km
      ∧ nb.parent = b.parent := by
  unfold newBodyAt at h
  cases hb : L.get? i with
  | none => rw [hb] at h; exact Option.noConfusion h
  | some b =>
    rw [hb] at h
    dsimp only at h
    cases hp : b.parent with
    | none => rw [hp] at h; exact Option.noConfusion h
    | some pidx =>
      rw [hp] at h
      dsimp only at h
      cases hm : (L.get? pidx).map OBody.mass with
      | none => rw [hm] at h; exact Option.noConfusion h
      | some pmass =>
        rw [hm] at h
        dsimp only at h
        obtain rfl := Option.some.inj h
        exact ⟨b, rfl, rfl, rfl, by rw [hp]⟩

/-- The update value for a slot depends only on that slot and on the mass
projection of the list (never on another body's in-flight angle). -/
theorem newBodyAt_congr {sqF : ℚ → ℚ} {dt : ℚ} {L M : List OBody} {j : ℕ}
    (hj : M.get? j = L.get? j)
    (hmass : ∀ k, (M.get? k).map OBody.mass = (L.get? k).map OBody.mass) :
    newBodyAt sqF dt M j = newBodyAt sqF dt L j := by
  unfold newBodyAt
  rw [hj]
  cases L.get? j with
  | none => rfl
  | some b =>
    dsimp only
    cases b.parent with
    | none => rfl
    | some pidx =>
      dsimp only
      rw [hmass pidx]

/-- Reformulation of updateBody when no write happens. -/
theorem updateBody_eq_of_none {sqF : ℚ → ℚ} {dt : ℚ} {L : List OBody} {i : ℕ}
    (h : newBodyAt sqF dt L i = none) : updateBody sqF dt L i = L := by
  unfold updateBody; rw [h]

/-- Reformulation of updateBody when a write happens. -/
theorem updateBody_eq_of_some {sqF : ℚ → ℚ} {dt : ℚ} {L : List OBody} {i : ℕ}
    {nb : OBody} (h : newBodyAt sqF dt L i = some nb) :
    updateBody sqF dt L i = L.set i nb := by
  unfold updateBody; rw [h]

/-- The mass projection of every entry is preserved by a body update. -/
theorem updateBody_mass (sqF : ℚ → ℚ) (dt : ℚ) (L : List OBody) (i k : ℕ) :
    ((updateBody sqF dt L i).get? k).map OBody.mass
      = (L.get? k).map OBody.mass := by
  by_cases hik : i = k
  · subst hik
    cases hA : newBodyAt sqF dt L i with
    | none => rw [updateBody_eq_of_none hA]
    | some nb =>
      rw [updateBody_eq_of_some hA]
      obtain ⟨b, hb, hmass, hdist, hpar⟩ := newBodyAt_eq_some hA
      have hlen : i < L.length := by
        rcases List.get?_eq_some.mp hb with ⟨hl, _⟩
        exact hl
      rw [List.get?_set_eq_of_lt nb hlen, hb]
      simp [hmass]
  · rw [updateBody_get?_ne sqF dt L hik]

/-- Two single-body updates commute, because each reads only its own
distance and the parent's mass, which neither update writes. -/
theorem updateBody_comm (sqF : ℚ → ℚ) (dt : ℚ) (L : List OBody) (i j : ℕ) :
    updateBody sqF dt (updateBody sqF dt L i) j
      = updateBody sqF dt (updateBody sqF dt L j) i := by
  by_cases hij : i = j
  · subst hij; rfl
  · have hBj : newBodyAt sqF dt (updateBody sqF dt L i) j = newBodyAt sqF dt L j :=
      newBodyAt_congr (updateBody_get?_ne sqF dt L hij)
        (fun k => updateBody_mass sqF dt L i k)
    have hBi : newBodyAt sqF dt (updateBody sqF dt L j) i = newBodyAt sqF dt L i :=
      newBodyAt_congr (updateBody_get?_ne sqF dt L (Ne.symm hij))
        (fun k => updateBody_mass sqF dt L j k)
    cases hA : newBodyAt sqF dt L i with
    | none =>
      have hUi : updateBody sqF dt L i = L := updateBody_eq_of_none hA
      cases hB : newBodyAt sqF dt L j with
      | none =>
        have hUj : updateBody sqF dt L j = L := updateBody_eq_of_none hB
        simp only [hUi, hUj]
      | some nbj =>
        have hUj : updateBody sqF dt L j = L.set j nbj := updateBody_eq_of_some hB
        rw [hUj] at hBi
        have hU2 : updateBody sqF dt (L.set j nbj) i = L.set j nbj :=
          updateBody_eq_of_none (hBi.trans hA)
        simp only [hUi, hUj, hU2]
    | some nbi =>
      have hUi : updateBody sqF dt L i = L.set i nbi := updateBody_eq_of_some hA
      rw [hUi] at hBj
      cases hB : newBodyAt sqF dt L j with
      | none =>
        have hUj : updateBody sqF dt L j = L := updateBody_eq_of_none hB
        have hU2 : updateBody sqF dt (L.set i nbi) j = L.set i nbi :=
          updateBody_eq_of_none (hBj.trans hB)
        simp only [hUi, hUj, hU2]
      | some nbj =>
        have hUj : updateBody sqF dt L j = L.set j nbj := updateBody_eq_of_some hB
        rw [hUj] at hBi
        have hU2 : updateBody sqF dt (L.set i nbi) j = (L.set i nbi).set j nbj :=
          updateBody_eq_of_some (hBj.trans hB)
        have hU3 : updateBody sqF dt (L.set j nbj) i = (L.set j nbj).set i nbi :=
          updateBody_eq_of_some (hBi.trans hA)
        simp only [hUi, hUj, hU2, hU3]
        exact List.set_comm nbi nbj L hij

/-- C5: the whole-hierarchy angle advance is order-independent: iterating the
per-body update over the body indices in any two orders that are permutations
of each other produces the same final list, hence the same final orbit angle
for every body.  Each update reads only its own distance and its parent's
mass, never another body's in-flight angle. -/
theorem update_orbits_order_independent (sqF : ℚ → ℚ) (dt : ℚ) (L : List OBody)
    (o1 o2 : List ℕ) (h : o1.Perm o2) :
    update_orbits sqF dt o1 L = update_orbits sqF dt o2 L := by
  unfold update_orbits
  exact h.foldl_eq' (fun x _ y _ z => updateBody_comm sqF dt z x y) L

/-- C5 witness: the two orders of a two-body list produce the same result. -/
theorem update_orbits_order_independent_witness :
    update_orbits (fun _ => 0) 3 [0, 1] bodyListW
      = update_orbits (fun _ => 0) 3 [1, 0] bodyListW :=
  update_orbits_order_independent (fun _ => 0) 3 bodyListW [0, 1] [1, 0]
    (List.Perm.swap 1 0 [])

end Rocketry
